import Mathlib

/-!
Verification of the `dataschema` validation engine (`src/dataschema/base.py`,
`src/dataschema/specs.py`, `src/dataschema/_utils.py`) via a shallow embedding.

Python runtime values handled by the library are modelled by the inductive
`Val`; specs are modelled by the mutual inductive `SpecDef`/`BT`/`DictVal`/
`DictData`/`CondSpec`; the checking code of `base.py` and `specs.py` is
transcribed into the mutually recursive functions `specCheckValue`,
`checkValueBaseType`, `checkValueTypes`, `checkDictSpec` and friends.
User-supplied callables (`canonicalize`, `is_unset`, constraint predicates,
post-rule `update`/`gate`/`test` functions) are modelled as Lean functions.
-/

namespace Dataschema

/-- Model of the Python runtime values the library manipulates: `None`,
booleans, integers, strings, lists and (insertion-ordered) dicts. -/
inductive Val where
  | none : Val
  | bool (b : Bool) : Val
  | int (n : Int) : Val
  | str (s : String) : Val
  | list (elems : List Val) : Val
  | dict (items : List (Val × Val)) : Val
deriving Repr

mutual
/-- Numeric canonical form used to model Python `==`: Python booleans compare
equal to the integers 0/1 (`True == 1`), so equality is structural equality
after mapping every boolean to the corresponding integer. -/
def numCanon : Val → Val
  | .none => .none
  | .bool b => .int (if b then 1 else 0)
  | .int n => .int n
  | .str s => .str s
  | .list l => .list (numCanonList l)
  | .dict d => .dict (numCanonItems d)

def numCanonList : List Val → List Val
  | [] => []
  | v :: vs => numCanon v :: numCanonList vs

def numCanonItems : List (Val × Val) → List (Val × Val)
  | [] => []
  | (k, v) :: rest => (numCanon k, numCanon v) :: numCanonItems rest
end

mutual
def valBeq : Val → Val → Bool
  | .none, .none => true
  | .bool a, .bool b => a == b
  | .int a, .int b => a == b
  | .str a, .str b => a == b
  | .list a, .list b => valBeqList a b
  | .dict a, .dict b => valBeqItems a b
  | _, _ => false

def valBeqList : List Val → List Val → Bool
  | [], [] => true
  | a :: as_, b :: bs => valBeq a b && valBeqList as_ bs
  | _, _ => false

def valBeqItems : List (Val × Val) → List (Val × Val) → Bool
  | [], [] => true
  | (ka, va) :: as_, (kb, vb) :: bs => valBeq ka kb && valBeq va vb && valBeqItems as_ bs
  | _, _ => false
end

mutual
theorem valBeq_correct : ∀ a b, valBeq a b = true ↔ a = b
  | .none, b => by cases b <;> simp [valBeq]
  | .bool a, b => by cases b <;> simp [valBeq]
  | .int a, b => by cases b <;> simp [valBeq]
  | .str a, b => by cases b <;> simp [valBeq]
  | .list a, b => by
      cases b <;> simp [valBeq]
      exact valBeqList_correct a _
  | .dict a, b => by
      cases b <;> simp [valBeq]
      exact valBeqItems_correct a _

theorem valBeqList_correct : ∀ a b, valBeqList a b = true ↔ a = b
  | [], b => by cases b <;> simp [valBeqList]
  | a :: as_, b => by
      cases b with
      | nil => simp [valBeqList]
      | cons b bs =>
        simp [valBeqList, Bool.and_eq_true, valBeq_correct a b, valBeqList_correct as_ bs]

theorem valBeqItems_correct : ∀ a b, valBeqItems a b = true ↔ a = b
  | [], b => by cases b <;> simp [valBeqItems]
  | (ka, va) :: as_, b => by
      cases b with
      | nil => simp [valBeqItems]
      | cons b bs =>
        obtain ⟨kb, vb⟩ := b
        simp [valBeqItems, Bool.and_eq_true, valBeq_correct ka kb, valBeq_correct va vb,
          valBeqItems_correct as_ bs, Prod.ext_iff]
end

instance : DecidableEq Val := fun a b =>
  decidable_of_iff (valBeq a b = true) (valBeq_correct a b)

/-- Model of Python `==` on the embedded values: structural equality up to the
boolean/integer conflation (`True == 1`, `False == 0`). This is the equality
used for dict-key lookup, set membership and `None in types` tests. -/
def pyEq (a b : Val) : Bool := numCanon a = numCanon b

/-- Python truthiness (`bool(value)`) for the modelled values. -/
def Val.truthy : Val → Bool
  | .none => false
  | .bool b => b
  | .int n => n != 0
  | .str s => s ≠ ""
  | .list l => !l.isEmpty
  | .dict d => !d.isEmpty

mutual
/-- Python `repr` of a modelled value (string escaping inside reprs is not
modelled; strings are wrapped in single quotes as CPython does). -/
def pyRepr : Val → String
  | .none => "None"
  | .bool b => if b then "True" else "False"
  | .int n => toString n
  | .str s => "\x27" ++ s ++ "\x27"
  | .list l => "[" ++ String.intercalate ", " (pyReprList l) ++ "]"
  | .dict d => "\x7b" ++ String.intercalate ", " (pyReprItems d) ++ "\x7d"

def pyReprList : List Val → List String
  | [] => []
  | v :: vs => pyRepr v :: pyReprList vs

def pyReprItems : List (Val × Val) → List String
  | [] => []
  | (k, v) :: rest => (pyRepr k ++ ": " ++ pyRepr v) :: pyReprItems rest
end

/-- The nominal Python types that can appear as base type descriptors in the
modelled schemas. -/
inductive PyType where
  | int | str | bool | list | dict | noneType
deriving Repr, DecidableEq

/-- Python `isinstance` for the modelled values and types.  `bool` is a
subclass of `int` in Python, so booleans are instances of `int`. -/
def isinstance : Val → PyType → Bool
  | .bool _, .int => true
  | .bool _, .bool => true
  | .int _, .int => true
  | .str _, .str => true
  | .list _, .list => true
  | .dict _, .dict => true
  | .none, .noneType => true
  | _, _ => false

def pyTypeName : PyType → String
  | .int => "int"
  | .str => "str"
  | .bool => "bool"
  | .list => "list"
  | .dict => "dict"
  | .noneType => "NoneType"

/-- A `SimpleType` base type descriptor (specs.py line 33): a nominal type,
the literal `True` or `False`, or `None`. -/
inductive SimpleBT where
  | type (t : PyType)
  | litTrue
  | litFalse
  | litNone
deriving Repr, DecidableEq

/-- `repr`/`get_base_type_name` string for a `SimpleBT`: type objects get
their `__name__`, the literals get their repr. -/
def simpleBTName : SimpleBT → String
  | .type t => pyTypeName t
  | .litTrue => "True"
  | .litFalse => "False"
  | .litNone => "None"

/-- Model of `_utils.InvalidValueError` (and its refinement
`InvalidValueNoTypeMatch`, distinguished by the `noTypeMatch` flag).
`message` is the composite human-readable message (`str(e)`), `messages` the
individual failure message list, whose length is `error_count`. -/
structure IVE where
  noTypeMatch : Bool
  message : String
  messages : List String
deriving Repr, DecidableEq

/-- `_utils.indent_msg_lines` (lines 9-13). -/
def indentMsgLines (messages : List String) : List String :=
  messages.map (fun m => String.intercalate "\n   " (m.splitOn "\n"))

/-- Model of `InvalidValueError.__init__` (_utils.py lines 16-26): with an
explicit message list the composite message is built from it; otherwise the
message list is the singleton of the composite message. -/
def mkIVE (ntm : Bool) (msg : String) (messages : List String) : IVE :=
  if messages.isEmpty then
    { noTypeMatch := ntm, message := msg, messages := [msg] }
  else
    { noTypeMatch := ntm
      message := msg ++ ":\n-- " ++ String.intercalate "\n-- " (indentMsgLines messages)
      messages := messages }

/-- `error_count` attribute of `InvalidValueError`. -/
def IVE.errorCount (e : IVE) : Nat := e.messages.length

/-- `base.default_is_unset` (base.py lines 41-48): falsy and not of an
explicitly-falsifiable type (`int`, `bool`; `float`/`complex` are not
modelled). -/
def default_is_unset (v : Val) : Bool :=
  !v.truthy && !(match v with | .int _ => true | .bool _ => true | _ => false)

/-- `specs.simple_is_unset` (specs.py lines 126-127). -/
def simple_is_unset (v : Val) : Bool := !v.truthy

/-- A user-supplied `canonicalize` callable.  An `.error (cls, msg)` result
models the callable raising an exception of one of the recognized
"bad input" classes (`ValueError`/`TypeError`/`AttributeError`/`KeyError`,
base.py line 197) with class name `cls` and message `msg`; other exception
kinds propagate as defects and are outside the model. -/
abbrev CanonFn := Val → Except (String × String) Val

/-- A constraint: a predicate plus its failure message (base.py `Constraint`). -/
abbrev ConstraintPair := (Val → Bool) × String

/-- A post-processing rule: `Update` or `Test` (specs.py lines 399-426).
The first reference key is stored separately because `Post.__init__` requires
at least one reference key (specs.py lines 366-369). -/
inductive PostRule where
  | update (refKey0 : Val) (refKeys : List Val) (upd : List Val → Val)
      (gate : List Val → Bool) : PostRule
  | test (refKey0 : Val) (refKeys : List Val) (tst : List Val → Bool)
      (message : String) : PostRule

mutual
/-- A constructed spec: `Type`/`CType` (merged, distinguished by `isCType`,
which selects the `_canonicalization_invalid_exception` class, specs.py line
184), `EnumSpec`, `TypeSpec`, `DictSpec` with their `Spec.__init__`
attributes. -/
inductive SpecDef where
  | type (isCType : Bool) (baseType : SimpleBT) (canonicalize : Option CanonFn)
      (optional : Bool) (default : Val) (is_unset : Val → Bool)
      (constraints : List ConstraintPair) : SpecDef
  | enum (values : List Val) (canonicalize : Option CanonFn)
      (optional : Bool) (default : Val) (is_unset : Val → Bool)
      (constraints : List ConstraintPair) : SpecDef
  | typeSpec (types : List BT) (optional : Bool) (default : Val)
      (is_unset : Val → Bool) (constraints : List ConstraintPair) : SpecDef
  | dictSpec (data : DictData) (name : String) (unhandled_ok : Bool)
      (optional : Bool) (default : Val) (is_unset : Val → Bool)
      (constraints : List ConstraintPair) : SpecDef

/-- A canonicalized base type descriptor (`canonicalize_base_type` output):
a nominal type / boolean literal / `None`, or a nested Spec. -/
inductive BT where
  | simple (t : SimpleBT) : BT
  | spec (s : SpecDef) : BT

/-- The value slot of a `value_key_specs` entry: an ordinary base type
descriptor or a `ConditionalDictSpec`. -/
inductive DictVal where
  | bt (t : BT) : DictVal
  | cond (c : CondSpec) : DictVal

/-- The key-rule table of a `DictSpec`: `value_key_specs`, `type_key_specs`
and `post`.  Type-key slots are plain base type descriptors because
`DictSpec.__init__` rejects `ConditionalDictSpec` in type keys (specs.py
lines 573-575). -/
inductive DictData where
  | mk (value_key_specs : List (Val × DictVal)) (type_key_specs : List (BT × BT))
      (post : List PostRule) : DictData

/-- `ConditionalDictSpec`.  `defaultSpec` is the `default_spec` attribute
resolved at construction: `value_condition_specs[default]` when
`apply_default_spec` is true, `None` otherwise (specs.py lines 447-454), so
`defaultSpec.isSome = apply_default_spec` for every constructed instance. -/
inductive CondSpec where
  | mk (value_condition_specs : List (Val × DictData)) (defaultSpec : Option DictData)
      (optional : Bool) (default : Val) (apply_default_spec : Bool) : CondSpec
end

namespace SpecDef

/-- The `optional` attribute set by `Spec.__init__`. -/
def optionalF : SpecDef → Bool
  | .type _ _ _ o _ _ _ => o
  | .enum _ _ o _ _ _ => o
  | .typeSpec _ o _ _ _ => o
  | .dictSpec _ _ _ o _ _ _ => o

/-- The value produced by `Spec.default()` (base.py lines 122-130); callable
defaults are modelled by the value they produce. -/
def defaultF : SpecDef → Val
  | .type _ _ _ _ d _ _ => d
  | .enum _ _ _ d _ _ => d
  | .typeSpec _ _ d _ _ => d
  | .dictSpec _ _ _ _ d _ _ => d

/-- The `is_unset` predicate of the spec. -/
def isUnsetF : SpecDef → (Val → Bool)
  | .type _ _ _ _ _ u _ => u
  | .enum _ _ _ _ u _ => u
  | .typeSpec _ _ _ u _ => u
  | .dictSpec _ _ _ _ _ u _ => u

/-- The canonicalized constraint list of the spec. -/
def constraintsF : SpecDef → List ConstraintPair
  | .type _ _ _ _ _ _ c => c
  | .enum _ _ _ _ _ c => c
  | .typeSpec _ _ _ _ c => c
  | .dictSpec _ _ _ _ _ _ c => c

/-- The `canonicalize` callable: only `Canonicalizable` subclasses
(`Type`/`CType`/`EnumSpec`) carry one; `TypeSpec`/`DictSpec` perform no value
canonicalization of their own. -/
def canonF : SpecDef → Option CanonFn
  | .type _ _ c _ _ _ _ => c
  | .enum _ c _ _ _ _ => c
  | .typeSpec _ _ _ _ _ => Option.none
  | .dictSpec _ _ _ _ _ _ _ => Option.none

/-- Whether `_canonicalization_invalid_exception` is
`InvalidValueNoTypeMatch`: true exactly for `CType` (specs.py line 184),
false for the `InvalidValueError` default (base.py line 204). -/
def ntmFlag : SpecDef → Bool
  | .type isC _ _ _ _ _ _ => isC
  | _ => false

/-- The `types` tuple of a `TypeSpec` (empty for other spec kinds). -/
def typesList : SpecDef → List BT
  | .typeSpec ts _ _ _ _ => ts
  | _ => []

end SpecDef

/-- `optional` of a value-key slot as tested by the missing-key handler
(specs.py lines 653-657): a Spec slot uses `Spec.optional`, a
`ConditionalDictSpec` slot its own `optional` flag, and a bare
type/literal slot is never optional. -/
def DictVal.optionalSlot : DictVal → Bool
  | .bt (.spec s) => s.optionalF
  | .bt (.simple _) => false
  | .cond (.mk _ _ o _ _) => o

mutual
/-- `Spec.type_name` for each spec kind (specs.py lines 163-164, 214-215,
243-244, 624-625).  `EnumSpec.type_name` iterates a `frozenset`, whose
ordering is unspecified in Python; the model preserves construction order. -/
def typeName : SpecDef → String
  | .type _ b _ _ _ _ _ => simpleBTName b
  | .enum values _ _ _ _ _ => "enum=" ++ String.intercalate "/" (pyReprList values)
  | .typeSpec types _ _ _ _ => String.intercalate "/" (typesNames types)
  | .dictSpec _ name _ _ _ _ _ => name

/-- `specs.get_base_type_name` (lines 66-73) on a canonicalized descriptor. -/
def getBaseTypeName : BT → String
  | .simple s => simpleBTName s
  | .spec s => typeName s

/-- `specs.get_types_names` (lines 76-80). -/
def typesNames : List BT → List String
  | [] => []
  | t :: ts => getBaseTypeName t :: typesNames ts
end

/-- `specs.must_be_msg` (lines 83-90) applied to a tuple, expressed on the
already-extracted name list: one name yields `Must be`, several yield
`Must be one of`. -/
def mustBeMsgNames (names : List String) : String :=
  match names with
  | [n] => "Must be " ++ n
  | ns => "Must be one of: " ++ String.intercalate ", " ns

/-- The simple-type branches of `specs.check_value_base_type` (lines 98-109):
a nominal type matches by `isinstance`, the literals `True`/`False`/`None`
match by identity (`value is t`); a failed match raises
`InvalidValueNoTypeMatch(must_be_msg(t))`. -/
def checkValueSimpleType (b : SimpleBT) (value : Val) : Except IVE Val :=
  match b with
  | .type pt =>
      if isinstance value pt then .ok value
      else .error (mkIVE true ("Must be " ++ pyTypeName pt) [])
  | .litTrue =>
      match value with
      | .bool true => .ok value
      | _ => .error (mkIVE true "Must be True" [])
  | .litFalse =>
      match value with
      | .bool false => .ok value
      | _ => .error (mkIVE true "Must be False" [])
  | .litNone =>
      match value with
      | .none => .ok value
      | _ => .error (mkIVE true "Must be None" [])

/-- `Spec.check_constraints` (base.py lines 132-151): skipped when there are
no constraints or the (optional) value is unset; otherwise every constraint
is evaluated, failures are collected, and a single- or multi-constraint
`InvalidValueError` is raised when any failed. -/
def checkConstraints (constraints : List ConstraintPair) (is_unset : Val → Bool)
    (optional : Bool) (value : Val) : Except IVE Unit :=
  if constraints.isEmpty then .ok ()
  else if is_unset value && optional then .ok ()
  else
    let failures := constraints.filterMap
      (fun c => if c.1 value then Option.none else some c.2)
    match failures with
    | [] => .ok ()
    | f :: _ =>
      if constraints.length = 1 then
        .error (mkIVE false ("Does not meet value constraint: " ++ f) [])
      else
        .error (mkIVE false "Does not meet value constraints" failures)

/-- `Canonicalizable.canonicalize` (base.py lines 224-232): apply the
callable when present; a recognized "bad input" exception is reclassified
into `_canonicalization_invalid_exception` (`InvalidValueNoTypeMatch` when
`ntm` is true, i.e. for `CType`, else `InvalidValueError`). -/
def canonicalizeStep (canon : Option CanonFn) (ntm : Bool) (value : Val) : Except IVE Val :=
  match canon with
  | Option.none => .ok value
  | some f =>
      match f value with
      | .ok c => .ok c
      | .error (cls, msg) =>
          .error (mkIVE ntm (cls ++ " during canonicalization: " ++ msg) [])

/-- Python dict lookup by key equality (`mapping[key]`), first match wins
(dict keys are unique up to `==`). -/
def lookupPy (items : List (Val × Val)) (key : Val) : Option Val :=
  match items with
  | [] => Option.none
  | (k, v) :: rest => if pyEq k key then some v else lookupPy rest key

/-- Lookup in the `value_condition_specs` mapping of a
`ConditionalDictSpec`. -/
def lookupPyD (items : List (Val × DictData)) (key : Val) : Option DictData :=
  match items with
  | [] => Option.none
  | (k, v) :: rest => if pyEq k key then some v else lookupPyD rest key

/-- Python dict assignment `d[key] = value`: replace in place when the key is
present, else append (insertion order preserved). -/
def dictSet (items : List (Val × Val)) (key value : Val) : List (Val × Val) :=
  match items with
  | [] => [(key, value)]
  | (k, v) :: rest =>
      if pyEq k key then (k, value) :: rest else (k, v) :: dictSet rest key value

/-- Membership of `key` in a key set/list under Python equality. -/
def containsKey (keys : List Val) (key : Val) : Bool :=
  keys.any (fun k => pyEq k key)

/-- `set.remove` on the unhandled-key set, modelled on a duplicate-free
list. -/
def removeKey (keys : List Val) (key : Val) : List Val :=
  keys.filter (fun k => !(pyEq k key))

/-- The ephemeral `_DictSpecValueChecker` state (specs.py lines 633-638):
the original mapping, the canonical mapping being built, the accumulated
failure messages and the not-yet-claimed keys.  In Python the set
`set(mapping.keys())` iterates in an unspecified order; the model keeps the
insertion order of the mapping. -/
structure Checker where
  mapping : List (Val × Val)
  c_mapping : List (Val × Val)
  failure_messages : List String
  unhandled_keys : List Val
deriving Repr, DecidableEq

/-- `Post._get_ref_values` (specs.py lines 381-392). -/
def getRefValues (refKeys : List Val) (c_mapping : List (Val × Val)) :
    Except IVE (List Val) :=
  let missing := refKeys.filter (fun k => (lookupPy c_mapping k).isNone)
  if missing.isEmpty then
    .ok (refKeys.filterMap (lookupPy c_mapping))
  else
    .error (mkIVE false
      ("Missing ref_keys " ++ String.intercalate ", " (missing.map pyRepr)) [])

/-- `Update.evaluate` / `Test.evaluate` (specs.py lines 408-411, 423-426),
returning the possibly updated canonical mapping. -/
def postEvaluate (p : PostRule) (c_mapping : List (Val × Val)) :
    Except IVE (List (Val × Val)) :=
  match p with
  | .update k0 ks upd gate =>
      match getRefValues (k0 :: ks) c_mapping with
      | .error e => .error e
      | .ok refValues =>
          if gate refValues then .ok (dictSet c_mapping k0 (upd refValues))
          else .ok c_mapping
  | .test k0 ks tst message =>
      match getRefValues (k0 :: ks) c_mapping with
      | .error e => .error e
      | .ok refValues =>
          if tst refValues then .ok c_mapping
          else .error (mkIVE false message [])

/-- The loop of `_DictSpecValueChecker._post_processing` (specs.py lines
691-695): each post rule is evaluated in declaration order; an
`InvalidValueError` is caught and its message appended to the failure list. -/
def postLoop (post : List PostRule) (st : Checker) : Checker :=
  match post with
  | [] => st
  | p :: ps =>
      match postEvaluate p st.c_mapping with
      | .ok cm => postLoop ps { st with c_mapping := cm }
      | .error e =>
          postLoop ps { st with failure_messages := st.failure_messages ++ [e.message] }

/-- `_DictSpecValueChecker._post_processing` (specs.py lines 690-697): run
all post rules, then raise one aggregated error when any failure message is
present. -/
def postProcessing (post : List PostRule) (st : Checker) : (Except IVE Unit) × Checker :=
  let st' := postLoop post st
  if st'.failure_messages.isEmpty then (.ok (), st')
  else (.error (mkIVE false "Post processing has failed" st'.failure_messages), st')

/-- Python `repr` of a canonicalized type-key descriptor, used only inside
the unhandled-keys message.  CPython reprs a `Spec` instance as
`<dataschema.specs... object at 0x...>` with a nondeterministic address; the
model uses a fixed placeholder for that case. -/
def btPyRepr : BT → String
  | .simple (.type t) => "<class \x27" ++ pyTypeName t ++ "\x27>"
  | .simple s => simpleBTName s
  | .spec _ => "<dataschema.specs.Spec object>"

/-- The unhandled-key check of `check_dict_spec` (specs.py lines 712-718).
`must_be_msg(all_keys)` receives a `list` (not a tuple), so it takes the
non-tuple branch of `must_be_msg` and produces `Must be` followed by
`repr(all_keys)`. -/
def unhandledCheck (value_key_specs : List (Val × DictVal)) (type_key_specs : List (BT × BT))
    (unhandled_ok : Bool) (st : Checker) : Checker :=
  if !unhandled_ok && !st.unhandled_keys.isEmpty then
    let allKeysRepr := "[" ++ String.intercalate ", "
      (value_key_specs.map (fun e => pyRepr e.1) ++ type_key_specs.map (fun e => btPyRepr e.1))
      ++ "]"
    { st with failure_messages := st.failure_messages ++
        ["Keys " ++ String.intercalate ", " (st.unhandled_keys.map pyRepr) ++
         " are unhandled; valid keys Must be " ++ allKeysRepr] }
  else st

namespace CondSpec

/-- The `optional` flag of a `ConditionalDictSpec`. -/
def optionalF : CondSpec → Bool
  | .mk _ _ o _ _ => o

/-- The `_default` value of a `ConditionalDictSpec`. -/
def defaultValF : CondSpec → Val
  | .mk _ _ _ d _ => d

end CondSpec

theorem lookupPyD_sizeOf {items : List (Val × DictData)} {key : Val} {d : DictData}
    (h : lookupPyD items key = some d) : sizeOf d < sizeOf items := by
  induction items with
  | nil => simp [lookupPyD] at h
  | cons hd tl ih =>
    obtain ⟨k, v⟩ := hd
    simp only [lookupPyD] at h
    by_cases hk : pyEq k key
    · simp only [hk, if_pos] at h
      cases h
      simp
      omega
    · simp only [hk, if_neg, Bool.false_eq_true, not_false_eq_true] at h
      have := ih h
      simp
      omega

set_option linter.unusedVariables false in
mutual

/-- `Spec.check_value` (base.py lines 153-165) combined with the
`Canonicalizable.check_value` override (base.py lines 234-236): substitute the
default when the value is unset and the spec optional, run the subclass
structural check, evaluate the constraints on the structurally-checked value,
and finally canonicalize (a no-op for `TypeSpec`/`DictSpec`, whose `canonF`
is `none`). -/
def specCheckValue (s : SpecDef) (value : Val) : Except IVE Val :=
  let value := if s.isUnsetF value && s.optionalF then s.defaultF else value
  match specInnerCheck s value with
  | .error e => .error e
  | .ok c =>
      match checkConstraints s.constraintsF s.isUnsetF s.optionalF c with
      | .error e => .error e
      | .ok _ => canonicalizeStep s.canonF s.ntmFlag c
termination_by (sizeOf s, 3, 0)

/-- The subclass `_check_value` methods: `Type._check_value` (specs.py lines
160-161), `EnumSpec._check_value` (lines 208-212), `TypeSpec._check_value`
(lines 240-241) and `DictSpec._check_value` (lines 627-631). -/
def specInnerCheck (s : SpecDef) (value : Val) : Except IVE Val :=
  match s with
  | .type _ base _ _ _ _ _ => checkValueSimpleType base value
  | .enum values _ _ _ _ _ =>
      if values.any (fun w => pyEq value w) then .ok value
      else .error (mkIVE true
        ("Must match enum=" ++ String.intercalate "/" (pyReprList values)) [])
  | .typeSpec types _ _ _ _ => checkValueTypes types value
  | .dictSpec d _ uok _ _ _ _ => dictSpecInnerCheck d uok value
termination_by (sizeOf s, 2, 0)

/-- `specs.check_value_base_type` (lines 93-109) on an already-canonicalized
descriptor: simple descriptors match by `isinstance`/identity, a nested Spec
delegates to its own `check_value`. -/
def checkValueBaseType (t : BT) (value : Val) : Except IVE Val :=
  match t with
  | .simple b => checkValueSimpleType b value
  | .spec s => specCheckValue s value
termination_by (sizeOf t, 0, 0)

/-- `specs.check_value_types` (lines 112-123): try each descriptor in order;
the final aggregated no-type-match failure carries `must_be_msg(types)`. -/
def checkValueTypes (types : List BT) (value : Val) : Except IVE Val :=
  checkValueTypesGo types value (mkIVE true (mustBeMsgNames (typesNames types)) [])
termination_by (sizeOf types, 2, 0)

/-- The loop of `check_value_types`: return the first success, fall through
on `InvalidValueNoTypeMatch`, propagate any other `InvalidValueError`
immediately. -/
def checkValueTypesGo (ts : List BT) (value : Val) (fallback : IVE) : Except IVE Val :=
  match ts with
  | [] => .error fallback
  | t :: rest =>
      match checkValueBaseType t value with
      | .ok c => .ok c
      | .error e =>
          if e.noTypeMatch then checkValueTypesGo rest value fallback else .error e
termination_by (sizeOf ts, 1, 0)

/-- `DictSpec._check_value` (specs.py lines 627-631): non-mappings are a
no-type-match; otherwise a fresh per-invocation checker is created over the
candidate mapping and `check_dict_spec` is run on it. -/
def dictSpecInnerCheck (d : DictData) (unhandled_ok : Bool) (value : Val) : Except IVE Val :=
  match value with
  | .dict items =>
      (checkDictSpec d unhandled_ok
        { mapping := items, c_mapping := [], failure_messages := [],
          unhandled_keys := items.map Prod.fst }).1
  | _ => .error (mkIVE true "Must be mapping/dict" [])
termination_by (sizeOf d, 1, 0)

/-- `_DictSpecValueChecker.check_dict_spec` (specs.py lines 708-725): run the
value-key pass, the type-key pass and the unhandled-key check; raise one
aggregated structural error when any failure message accumulated, otherwise
run post-processing and return the canonical mapping. -/
def checkDictSpec (d : DictData) (unhandled_ok : Bool) (st : Checker) :
    (Except IVE Val) × Checker :=
  match d with
  | .mk vks tks post =>
      match checkValueKeySpecs vks st with
      | (.error e, st1) => (.error e, st1)
      | (.ok _, st1) =>
          let st3 := unhandledCheck vks tks unhandled_ok (checkTypeKeySpecs tks st1)
          if st3.failure_messages.isEmpty then
            match postProcessing post st3 with
            | (.ok _, st4) => (.ok (.dict st4.c_mapping), st4)
            | (.error e, st4) => (.error e, st4)
          else
            (.error (mkIVE false "Does not conform with dict schema" st3.failure_messages),
              st3)
termination_by (sizeOf d, 0, 0)

/-- `_DictSpecValueChecker._check_value_key_specs` (specs.py lines 646-661).
For each declared value key in order: a key still unclaimed is removed from
the unhandled set and its value validated (failures are recorded and the loop
continues); a key not present (the `KeyError` branch, also reached when the
key was already claimed) goes to the missing-key handler, whose own raised
errors propagate out of the loop (they are raised inside the `except`
handler and are not caught). -/
def checkValueKeySpecs (vks : List (Val × DictVal)) (st : Checker) :
    (Except IVE Unit) × Checker :=
  match vks with
  | [] => (.ok (), st)
  | (key, spec) :: rest =>
      if containsKey st.unhandled_keys key then
        let st0 := { st with unhandled_keys := removeKey st.unhandled_keys key }
        match lookupPy st0.mapping key with
        | some value =>
            match checkDictSpecValue spec value st0 with
            | (.ok c, st1) =>
                checkValueKeySpecs rest
                  { st1 with c_mapping := dictSet st1.c_mapping key c }
            | (.error e, st1) =>
                checkValueKeySpecs rest
                  { st1 with failure_messages := st1.failure_messages ++
                      ["Invalid value for key " ++ pyRepr key ++ ": " ++ e.message] }
        | Option.none =>
            match missingKeyHandler key spec st0 with
            | (.ok _, st1) => checkValueKeySpecs rest st1
            | (.error e, st1) => (.error e, st1)
      else
        match missingKeyHandler key spec st with
        | (.ok _, st1) => checkValueKeySpecs rest st1
        | (.error e, st1) => (.error e, st1)
termination_by (sizeOf vks, 1, 0)

/-- The `except KeyError` handler of `_check_value_key_specs` (specs.py lines
652-659): an optional Spec substitutes its default, computed and validated at
substitution time; an optional `ConditionalDictSpec` applies its own default
mechanism; otherwise a missing-required-key failure is recorded. -/
def missingKeyHandler (key : Val) (spec : DictVal) (st : Checker) :
    (Except IVE Unit) × Checker :=
  match spec with
  | .bt (.spec s) =>
      if s.optionalF then
        match specCheckValue s s.defaultF with
        | .ok c => (.ok (), { st with c_mapping := dictSet st.c_mapping key c })
        | .error e => (.error e, st)
      else
        (.ok (), { st with failure_messages := st.failure_messages ++
            ["Missing required mapping key " ++ pyRepr key] })
  | .cond c =>
      if c.optionalF then
        match condDefault c st with
        | (.ok v, st1) => (.ok (), { st1 with c_mapping := dictSet st1.c_mapping key v })
        | (.error e, st1) => (.error e, st1)
      else
        (.ok (), { st with failure_messages := st.failure_messages ++
            ["Missing required mapping key " ++ pyRepr key] })
  | .bt (.simple _) =>
      (.ok (), { st with failure_messages := st.failure_messages ++
          ["Missing required mapping key " ++ pyRepr key] })
termination_by (sizeOf spec, 2, 0)

/-- `ConditionalDictSpec.default` (specs.py lines 470-473): when
`apply_default_spec` is set (equivalently, when `default_spec` was resolved
at construction) the designated sub-schema is checked against the enclosing
checker with unhandled keys tolerated, then the scalar default is returned. -/
def condDefault (c : CondSpec) (st : Checker) : (Except IVE Val) × Checker :=
  match c with
  | .mk _ (some ds) _ dflt _ =>
      match checkDictSpec ds true st with
      | (.ok _, st1) => (.ok dflt, st1)
      | (.error e, st1) => (.error e, st1)
  | .mk _ Option.none _ dflt _ => (.ok dflt, st)
termination_by (sizeOf c, 1, 0)

/-- `ConditionalDictSpec.check_value` (specs.py lines 475-483): look the
observed scalar up among the declared values; on a match the auxiliary
sub-schema is validated against the whole enclosing checker with unhandled
keys tolerated and the scalar itself is returned; a failing sub-check is
wrapped; an unknown scalar raises a failure listing the permitted values. -/
def condCheckValue (c : CondSpec) (value : Val) (st : Checker) :
    (Except IVE Val) × Checker :=
  match c with
  | .mk vcs _ _ _ _ =>
      match h : lookupPyD vcs value with
      | some valueSpec =>
          match checkDictSpec valueSpec true st with
          | (.ok _, st1) => (.ok value, st1)
          | (.error e, st1) =>
              (.error (mkIVE false
                ("Does not conform with conditional spec for value " ++ pyRepr value ++
                 ": " ++ e.message) []), st1)
      | Option.none =>
          (.error (mkIVE false (mustBeMsgNames (vcs.map (fun p => pyRepr p.1))) []), st)
termination_by (sizeOf c, 0, 0)
decreasing_by
  have hlt := lookupPyD_sizeOf h
  simp_wf
  refine Prod.Lex.left _ _ ?_
  omega

/-- `_DictSpecValueChecker._check_dict_spec_value` (specs.py lines 640-644). -/
def checkDictSpecValue (spec : DictVal) (value : Val) (st : Checker) :
    (Except IVE Val) × Checker :=
  match spec with
  | .cond c => condCheckValue c value st
  | .bt t => (checkValueBaseType t value, st)
termination_by (sizeOf spec, 1, 0)

/-- `_DictSpecValueChecker._check_type_key_spec` (specs.py lines 663-674):
the first type rule whose key matches claims the key; a value failure then
raises immediately (no fallback to later type rules); no key match at all is
a no-type-match. -/
def checkTypeKeySpec (tks : List (BT × BT)) (key value : Val) : Except IVE (Val × Val) :=
  match tks with
  | [] => .error (mkIVE true "No match for dict type keys" [])
  | (tk, spec) :: rest =>
      match checkValueBaseType tk key with
      | .error _ => checkTypeKeySpec rest key value
      | .ok cKey =>
          match checkValueBaseType spec value with
          | .ok cValue => .ok (cKey, cValue)
          | .error e =>
              .error (mkIVE false
                ("Value for key " ++ pyRepr key ++ " does not conform with spec: " ++
                 e.message) [])
termination_by (sizeOf tks, 0, 0)

/-- `_DictSpecValueChecker._check_type_key_specs` (specs.py lines 676-688),
entry guard and snapshot of the unhandled keys. -/
def checkTypeKeySpecs (tks : List (BT × BT)) (st : Checker) : Checker :=
  if st.unhandled_keys.isEmpty || tks.isEmpty then st
  else typeKeyLoop tks st.unhandled_keys st
termination_by (sizeOf tks, 2, 0)

/-- The loop of `_check_type_key_specs` over the snapshot of unhandled keys:
a no-type-match leaves the key unhandled, a claimed key is removed and its
canonical pair stored, any other failure records the message and removes the
key.  (A snapshot key absent from the mapping cannot occur since the
unhandled set always holds mapping keys; the model skips such a key.) -/
def typeKeyLoop (tks : List (BT × BT)) (keys : List Val) (st : Checker) : Checker :=
  match keys with
  | [] => st
  | key :: rest =>
      match lookupPy st.mapping key with
      | Option.none => typeKeyLoop tks rest st
      | some value =>
          match checkTypeKeySpec tks key value with
          | .ok (cKey, cValue) =>
              typeKeyLoop tks rest { st with
                unhandled_keys := removeKey st.unhandled_keys key,
                c_mapping := dictSet st.c_mapping cKey cValue }
          | .error e =>
              if e.noTypeMatch then typeKeyLoop tks rest st
              else typeKeyLoop tks rest { st with
                failure_messages := st.failure_messages ++ [e.message],
                unhandled_keys := removeKey st.unhandled_keys key }
termination_by (sizeOf tks, 1, sizeOf keys)

end

/-- The optional-default validation of `Spec.__init__` (base.py lines
99-104): when `optional` is set, the default value is computed and checked
with the subclass `_check_value`; an `InvalidValueError` is reclassified as
a `BadSchemaError` (modelled by the `.error` case of `Except String`).
Only the structural `_check_value` runs here; the constraints of the spec are
not evaluated at construction time. -/
def specInitCheck (s : SpecDef) : Except String SpecDef :=
  if s.optionalF then
    match specInnerCheck s s.defaultF with
    | .ok _ => .ok s
    | .error e => .error ("Invalid schema, default value is spec-invalid: " ++ e.message)
  else .ok s

/-- `Type.__init__` / `CType` (specs.py lines 144-158, 167-184): store the
wrapped simple type, then `Canonicalizable.__init__` runs `Spec.__init__`,
which validates the default when `optional` is set. -/
def mkType (isCType : Bool) (base : SimpleBT) (canonicalize : Option CanonFn)
    (optional : Bool) (default : Val) (is_unset : Val → Bool)
    (constraints : List ConstraintPair) : Except String SpecDef :=
  specInitCheck (.type isCType base canonicalize optional default is_unset constraints)

/-- `EnumSpec.__init__` (specs.py lines 195-206): `optional=True` adds `None`
to the value set when absent, and the flag is then recomputed as `None in
values`.  The `frozenset` is modelled as the construction-ordered list. -/
def mkEnumSpec (values : List Val) (canonicalize : Option CanonFn)
    (constraints : List ConstraintPair) (optional : Bool) (is_unset : Val → Bool)
    (default : Val) : Except String SpecDef :=
  let values := if optional && !(values.any (fun v => pyEq .none v))
    then values ++ [.none] else values
  let optional := values.any (fun v => pyEq .none v)
  specInitCheck (.enum values canonicalize optional default is_unset constraints)

/-- Whether a canonicalized descriptor is the literal `None`: the result of
the `None in types` membership test of `TypeSpec.__init__`, since `None`
compares equal only to itself among canonicalized descriptors. -/
def isNoneLit : BT → Bool
  | .simple .litNone => true
  | _ => false

/-- `TypeSpec.__init__` (specs.py lines 227-238) on already-canonicalized
types: `optional=True` appends `None` to the type tuple when absent, and the
flag is then recomputed as `None in types`; `Spec.__init__` validates the
default when the spec ends up optional. -/
def mkTypeSpec (types : List BT) (optional : Bool) (default : Val)
    (is_unset : Val → Bool) (constraints : List ConstraintPair) : Except String SpecDef :=
  let types := if optional && !(types.any isNoneLit)
    then types ++ [.simple .litNone] else types
  let optional := types.any isNoneLit
  specInitCheck (.typeSpec types optional default is_unset constraints)

/-- Digit-accumulating helper for the modelled `int()` parser. -/
def parseDigits : List Char → Option Nat → Option Nat
  | [], acc => acc
  | c :: cs, acc =>
      if 48 ≤ c.toNat ∧ c.toNat ≤ 57 then
        parseDigits cs (some ((acc.getD 0) * 10 + (c.toNat - 48)))
      else Option.none

/-- Decimal-string parse modelling `int()` applied to a string: an optional
minus sign followed by at least one digit. -/
def pyParseInt (s : String) : Option Int :=
  match s.data with
  | [] => Option.none
  | c :: cs =>
      if c = Char.ofNat 45 then (parseDigits cs Option.none).map (fun n => -(n : Int))
      else (parseDigits (c :: cs) Option.none).map (fun n => (n : Int))

/-- The Python builtin `int` used as a user-supplied `canonicalize` callable
(as in the union-order scenario): integers and booleans convert, decimal
strings parse, non-numeric strings raise `ValueError`, other types raise
`TypeError`. -/
def pyIntCanon : CanonFn := fun v =>
  match v with
  | .int n => .ok (.int n)
  | .bool b => .ok (.int (if b then 1 else 0))
  | .str s =>
      match pyParseInt s with
      | some n => .ok (.int n)
      | Option.none => .error ("ValueError",
          "invalid literal for int() with base 10: " ++ pyRepr (.str s))
  | _ => .error ("TypeError",
      "int() argument must be a string, a bytes-like object or a real number")

/-- Constraint predicate from the repo test `test_type_invalid_default`:
`lambda v: v.startswith(x)`. -/
def startsWithX : Val → Bool := fun v =>
  match v with
  | .str s =>
      match s.data with
      | c :: _ => c = Char.ofNat 120
      | [] => false
  | _ => false

/-- The failure messages the value-key pass records: one per declared value
key absent from the mapping. -/
def missingMsgs (m : List (Val × Val)) (vks : List (Val × DictVal)) : List String :=
  vks.filterMap (fun en =>
    if (lookupPy m en.1).isNone then
      some ("Missing required mapping key " ++ pyRepr en.1)
    else Option.none)

/-- The declared value keys present in the mapping. -/
def presentKeys (m : List (Val × Val)) (vks : List (Val × DictVal)) : List Val :=
  (vks.filter (fun en => (lookupPy m en.1).isSome)).map Prod.fst

/-- Successive removal of a list of keys from the unhandled set. -/
def removeKeys (keys : List Val) (ks : List Val) : List Val := ks.foldl removeKey keys

/-- Per-entry hypothesis of the aggregation lemma: either the key is present
with a plain descriptor slot whose check succeeds, or the key is absent and
the slot is required. -/
def EntryOk (m : List (Val × Val)) (en : Val × DictVal) : Prop :=
  (∃ t v c, en.2 = DictVal.bt t ∧ lookupPy m en.1 = some v ∧ checkValueBaseType t v = .ok c)
  ∨ (lookupPy m en.1 = Option.none ∧ en.2.optionalSlot = false)

/-- C7: `check_value_base_type` on a nominal type descriptor succeeds and
returns the value unchanged exactly when `isinstance` holds, and otherwise
raises a no-type-match error; the descriptors `True`, `False` and `None`
match by identity, so the descriptor `True` accepts only the value `True`
and rejects the integer 1 (even though `isinstance(True, int)` holds, so the
nominal descriptor `int` does accept `True`). -/
theorem c7_base_type_matching :
    (∀ (T : PyType) (v : Val),
      checkValueBaseType (.simple (.type T)) v =
        if isinstance v T then .ok v
        else .error (mkIVE true ("Must be " ++ pyTypeName T) []))
    ∧ (∀ v : Val, checkValueBaseType (.simple .litTrue) v =
        if v = .bool true then .ok v else .error (mkIVE true "Must be True" []))
    ∧ (∀ v : Val, checkValueBaseType (.simple .litFalse) v =
        if v = .bool false then .ok v else .error (mkIVE true "Must be False" []))
    ∧ (∀ v : Val, checkValueBaseType (.simple .litNone) v =
        if v = .none then .ok v else .error (mkIVE true "Must be None" []))
    ∧ checkValueBaseType (.simple .litTrue) (.int 1) =
        .error (mkIVE true "Must be True" [])
    ∧ checkValueBaseType (.simple (.type .int)) (.bool true) = .ok (.bool true) := by
  refine ⟨?_, ?_, ?_, ?_, ?_, ?_⟩
  · intro T v
    simp [checkValueBaseType, checkValueSimpleType]
  · intro v
    cases v with
    | bool b => cases b <;> simp [checkValueBaseType, checkValueSimpleType]
    | _ => simp [checkValueBaseType, checkValueSimpleType]
  · intro v
    cases v with
    | bool b => cases b <;> simp [checkValueBaseType, checkValueSimpleType]
    | _ => simp [checkValueBaseType, checkValueSimpleType]
  · intro v
    cases v <;> simp [checkValueBaseType, checkValueSimpleType]
  · simp [checkValueBaseType, checkValueSimpleType]
  · simp [checkValueBaseType, checkValueSimpleType, isinstance]

/-- C10: for every spec, `check_value` performs, in order, unset/default
substitution, the structural `_check_value`, constraint evaluation on the
structurally-checked (pre-canonicalization) value, and canonicalization
last, so the returned value is the canonicalization of the constraint-checked
value (including when the checked value came from default substitution).
`Type`/`CType`/`EnumSpec` carry their user callable in `canonF`; for
`TypeSpec`/`DictSpec` the slot is `none` and the final step is the
identity. -/
theorem c10_check_value_pipeline_order (s : SpecDef) (v r : Val) :
    specCheckValue s v = .ok r ↔
      ∃ c, specInnerCheck s (if s.isUnsetF v && s.optionalF then s.defaultF else v) = .ok c
        ∧ checkConstraints s.constraintsF s.isUnsetF s.optionalF c = .ok ()
        ∧ canonicalizeStep s.canonF s.ntmFlag c = .ok r := by
  simp only [specCheckValue]
  generalize (if s.isUnsetF v && s.optionalF then s.defaultF else v) = w
  cases hin : specInnerCheck s w with
  | error e => simp [hin]
  | ok c =>
    cases hc : checkConstraints s.constraintsF s.isUnsetF s.optionalF c with
    | error e => simp [hin, hc]
    | ok u =>
      cases u
      simp [hin, hc]

/-- C6 counterexample: `Type(str, canonicalize=int)` with the idempotent
canonicalization `int` (a projection: `int(int(x)) == int(x)`, in particular
`int(3) == 3`) accepts the string `3` producing the integer 3, but
re-validating 3 against the same spec fails the structural check with a
no-type-match, so `check_value` is not idempotent as claimed. -/
theorem c6_idempotence_counterexample :
    specCheckValue (.type false (.type .str) (some pyIntCanon) false .none default_is_unset [])
        (.str "3") = .ok (.int 3)
    ∧ pyIntCanon (.int 3) = .ok (.int 3)
    ∧ specCheckValue (.type false (.type .str) (some pyIntCanon) false .none default_is_unset [])
        (.int 3) = .error (mkIVE true "Must be str" []) := by
  refine ⟨?_, rfl, ?_⟩
  · simp [specCheckValue, specInnerCheck, checkValueSimpleType, checkConstraints,
      canonicalizeStep, pyIntCanon, pyParseInt, parseDigits, SpecDef.isUnsetF, SpecDef.optionalF,
      SpecDef.defaultF, SpecDef.constraintsF, SpecDef.canonF, SpecDef.ntmFlag,
      default_is_unset, Val.truthy, isinstance]
  · simp [specCheckValue, specInnerCheck, checkValueSimpleType, SpecDef.isUnsetF,
      SpecDef.optionalF, SpecDef.defaultF, default_is_unset, Val.truthy, isinstance,
      pyTypeName]

/-- C6 amended: re-validating a canonical value `c` produced by an accepted
validation returns `c` unchanged, provided additionally that `c` is not
judged unset (when the spec is optional), that `c` itself passes the
structural check of the spec returning `c`, that `c` satisfies all declared
constraints,
and that `c` is a fixed point of the canonicalization step (which holds for
an idempotent canonicalization whose image re-identifies as the wrapped
type). -/
theorem c6_idempotence_amended (s : SpecDef) (v c : Val)
    (_hfirst : specCheckValue s v = .ok c)
    (hunset : (s.isUnsetF c && s.optionalF) = false)
    (hinner : specInnerCheck s c = .ok c)
    (hcons : checkConstraints s.constraintsF s.isUnsetF s.optionalF c = .ok ())
    (hcanon : canonicalizeStep s.canonF s.ntmFlag c = .ok c) :
    specCheckValue s c = .ok c := by
  simp [specCheckValue, hunset, hinner, hcons, hcanon]

/-- Witness for the amended idempotence theorem at a concrete spec and
value: `Type(int)` on the integer 5. -/
theorem c6_idempotence_amended_witness :
    specCheckValue (.type false (.type .int) Option.none false .none default_is_unset [])
        (.int 5) = .ok (.int 5) :=
  c6_idempotence_amended
    (.type false (.type .int) Option.none false .none default_is_unset [])
    (.int 5) (.int 5)
    (by simp [specCheckValue, specInnerCheck, checkValueSimpleType, checkConstraints,
      canonicalizeStep, SpecDef.isUnsetF, SpecDef.optionalF, SpecDef.defaultF,
      SpecDef.constraintsF, SpecDef.canonF, SpecDef.ntmFlag, default_is_unset,
      Val.truthy, isinstance])
    (by simp [SpecDef.isUnsetF, SpecDef.optionalF])
    (by simp [specInnerCheck, checkValueSimpleType, isinstance])
    (by simp [checkConstraints, SpecDef.constraintsF])
    (by simp [canonicalizeStep, SpecDef.canonF, SpecDef.ntmFlag])

/-- C5 divergence: `Spec.__init__` in base.py validates an optional default
with the structural `_check_value` only, so the exact input of the repo test
`test_type_invalid_default` (`Type(str, default=foo, constraints=(lambda v:
v.startswith(x), ...), optional=True)`) constructs successfully even though
its default violates the declared constraint, and the constraint failure
surfaces only when an unset value is later validated; a structurally invalid
default (`Type(str, default=5, optional=True)`) does raise the schema
error. -/
theorem c5_optional_default_constraint_not_checked :
    mkType false (.type .str) Option.none true (.str "foo") default_is_unset
        [(startsWithX, "Must start with x")]
      = .ok (.type false (.type .str) Option.none true (.str "foo") default_is_unset
        [(startsWithX, "Must start with x")])
    ∧ startsWithX (.str "foo") = false
    ∧ specCheckValue (.type false (.type .str) Option.none true (.str "foo") default_is_unset
        [(startsWithX, "Must start with x")]) .none
      = .error (mkIVE false "Does not meet value constraint: Must start with x" [])
    ∧ mkType false (.type .str) Option.none true (.int 5) default_is_unset []
      = .error "Invalid schema, default value is spec-invalid: Must be str" := by
  refine ⟨?_, by decide, ?_, ?_⟩
  · simp [mkType, specInitCheck, specInnerCheck, checkValueSimpleType, SpecDef.optionalF,
      SpecDef.defaultF, isinstance]
  · simp [specCheckValue, specInnerCheck, checkValueSimpleType, checkConstraints,
      canonicalizeStep, startsWithX, SpecDef.isUnsetF, SpecDef.optionalF, SpecDef.defaultF,
      SpecDef.constraintsF, SpecDef.canonF, SpecDef.ntmFlag, default_is_unset,
      Val.truthy, isinstance, mkIVE]
  · simp [mkType, specInitCheck, specInnerCheck, checkValueSimpleType, SpecDef.optionalF,
      SpecDef.defaultF, isinstance, mkIVE, pyTypeName]

/-- A prefix of descriptors that all fail with `InvalidValueNoTypeMatch` is
skipped by the union-resolution loop. -/
theorem checkValueTypesGo_skip_ntm (pre rest : List BT) (v : Val) (fb : IVE)
    (h : ∀ t' ∈ pre, ∃ e, checkValueBaseType t' v = .error e ∧ e.noTypeMatch = true) :
    checkValueTypesGo (pre ++ rest) v fb = checkValueTypesGo rest v fb := by
  induction pre with
  | nil => simp
  | cons t ts ih =>
    obtain ⟨e, he, hntm⟩ := h t (by simp)
    rw [List.cons_append]
    rw [checkValueTypesGo, he]
    simp only [hntm, if_true]
    exact ih (fun t' ht' => h t' (by simp [ht']))

/-- C3: union resolution tries the canonicalized descriptors in declaration
order and returns the result of the first that succeeds; a no-type-match
failure falls through to the next descriptor, while any other value-invalid
failure propagates immediately.  Consequently validating the string `foo`
against `(Type(str, canonicalize=int), EnumSpec(set with foo))` raises the
canonicalization failure, while the `CType` variant of the same union falls
through to the enum and returns `foo`. -/
theorem c3_union_resolution :
    (∀ (pre : List BT) (t : BT) (post : List BT) (v c : Val),
      (∀ t' ∈ pre, ∃ e, checkValueBaseType t' v = .error e ∧ e.noTypeMatch = true) →
      checkValueBaseType t v = .ok c →
      checkValueTypes (pre ++ t :: post) v = .ok c)
    ∧ (∀ (pre : List BT) (t : BT) (post : List BT) (v : Val) (e : IVE),
      (∀ t' ∈ pre, ∃ e', checkValueBaseType t' v = .error e' ∧ e'.noTypeMatch = true) →
      checkValueBaseType t v = .error e → e.noTypeMatch = false →
      checkValueTypes (pre ++ t :: post) v = .error e)
    ∧ checkValueTypes
        [.spec (.type false (.type .str) (some pyIntCanon) false .none default_is_unset []),
         .spec (.enum [.str "foo"] Option.none false .none simple_is_unset [])] (.str "foo")
      = .error (mkIVE false
          "ValueError during canonicalization: invalid literal for int() with base 10: \x27foo\x27"
          [])
    ∧ checkValueTypes
        [.spec (.type true (.type .str) (some pyIntCanon) false .none default_is_unset []),
         .spec (.enum [.str "foo"] Option.none false .none simple_is_unset [])] (.str "foo")
      = .ok (.str "foo") := by
  refine ⟨?_, ?_, ?_, ?_⟩
  · intro pre t post v c hpre ht
    rw [checkValueTypes, checkValueTypesGo_skip_ntm pre (t :: post) v _ hpre]
    rw [checkValueTypesGo, ht]
  · intro pre t post v e hpre ht hntm
    rw [checkValueTypes, checkValueTypesGo_skip_ntm pre (t :: post) v _ hpre]
    rw [checkValueTypesGo, ht]
    simp [hntm]
  · simp [checkValueTypes, checkValueTypesGo, checkValueBaseType, specCheckValue,
      specInnerCheck, checkValueSimpleType, checkConstraints, canonicalizeStep, pyIntCanon,
      pyParseInt, parseDigits, SpecDef.isUnsetF, SpecDef.optionalF, SpecDef.defaultF,
      SpecDef.constraintsF, SpecDef.canonF, SpecDef.ntmFlag, default_is_unset,
      simple_is_unset, Val.truthy, isinstance, pyRepr, mkIVE]
  · simp [checkValueTypes, checkValueTypesGo, checkValueBaseType, specCheckValue,
      specInnerCheck, checkValueSimpleType, checkConstraints, canonicalizeStep, pyIntCanon,
      pyParseInt, parseDigits, SpecDef.isUnsetF, SpecDef.optionalF, SpecDef.defaultF,
      SpecDef.constraintsF, SpecDef.canonF, SpecDef.ntmFlag, default_is_unset,
      simple_is_unset, Val.truthy, isinstance, pyEq, numCanon, pyRepr, mkIVE]

/-- Witness for the union-resolution theorem at concrete descriptors: the
first-success part on `(int, str)` applied to a string, and the
immediate-propagation part on `(int, Type(str, canonicalize=int))` applied to
a non-numeric string. -/
theorem c3_union_resolution_witness :
    checkValueTypes [.simple (.type .int), .simple (.type .str)] (.str "a") = .ok (.str "a")
    ∧ checkValueTypes [.simple (.type .int),
        .spec (.type false (.type .str) (some pyIntCanon) false .none default_is_unset [])]
        (.str "a")
      = .error (mkIVE false
          "ValueError during canonicalization: invalid literal for int() with base 10: \x27a\x27"
          []) := by
  constructor
  · exact c3_union_resolution.1 [.simple (.type .int)] (.simple (.type .str)) []
      (.str "a") (.str "a")
      (by
        intro t' ht'
        simp only [List.mem_singleton] at ht'
        subst ht'
        exact ⟨mkIVE true "Must be int" [],
          by simp [checkValueBaseType, checkValueSimpleType, isinstance, pyTypeName],
          by decide⟩)
      (by simp [checkValueBaseType, checkValueSimpleType, isinstance])
  · exact c3_union_resolution.2.1 [.simple (.type .int)]
      (.spec (.type false (.type .str) (some pyIntCanon) false .none default_is_unset []))
      [] (.str "a") _
      (by
        intro t' ht'
        simp only [List.mem_singleton] at ht'
        subst ht'
        exact ⟨mkIVE true "Must be int" [],
          by simp [checkValueBaseType, checkValueSimpleType, isinstance, pyTypeName],
          by decide⟩)
      (by simp [checkValueBaseType, specCheckValue, specInnerCheck, checkValueSimpleType,
        checkConstraints, canonicalizeStep, pyIntCanon, pyParseInt, parseDigits,
        SpecDef.isUnsetF, SpecDef.optionalF, SpecDef.defaultF, SpecDef.constraintsF,
        SpecDef.canonF, SpecDef.ntmFlag, default_is_unset, Val.truthy, isinstance,
        pyRepr, mkIVE])
      (by decide)

/-- Every spec returned by a successful `specInitCheck` is the spec that was
passed in (the constructor validation does not modify the spec). -/
theorem specInitCheck_ok {s s' : SpecDef} (h : specInitCheck s = .ok s') : s' = s := by
  unfold specInitCheck at h
  split at h
  · cases hI : specInnerCheck s s.defaultF with
    | ok c =>
      rw [hI] at h
      simpa using h.symm
    | error e =>
      rw [hI] at h
      simp at h
  · simpa using h.symm

/-- C8: constructing a `TypeSpec` with `None` among its types yields an
optional spec; constructing with `optional=True` appends `None` to the type
tuple (and the spec is optional); in particular `TypeSpec((int, None))`
constructs successfully and `check_value(None)` returns `None`. -/
theorem c8_typespec_none_optional :
    (∀ (types : List BT) (opt : Bool) (dflt : Val) (iu : Val → Bool)
        (cs : List ConstraintPair) (s : SpecDef),
      types.any isNoneLit = true → mkTypeSpec types opt dflt iu cs = .ok s →
      s.optionalF = true)
    ∧ (∀ (types : List BT) (dflt : Val) (iu : Val → Bool) (cs : List ConstraintPair)
        (s : SpecDef),
      types.any isNoneLit = false → mkTypeSpec types true dflt iu cs = .ok s →
      s.typesList = types ++ [.simple .litNone] ∧ s.optionalF = true)
    ∧ mkTypeSpec [.simple (.type .int), .simple .litNone] false .none default_is_unset []
      = .ok (.typeSpec [.simple (.type .int), .simple .litNone] true .none default_is_unset [])
    ∧ specCheckValue
        (.typeSpec [.simple (.type .int), .simple .litNone] true .none default_is_unset [])
        .none = .ok .none := by
  refine ⟨?_, ?_, ?_, ?_⟩
  · intro types opt dflt iu cs s hN hmk
    simp only [mkTypeSpec, hN, Bool.not_true, Bool.and_false, Bool.false_eq_true,
      if_false] at hmk
    rw [specInitCheck_ok hmk]
    simp [SpecDef.optionalF]
  · intro types dflt iu cs s hN hmk
    simp only [mkTypeSpec, hN, Bool.not_false, Bool.and_self, if_true,
      List.any_append] at hmk
    simp only [List.any_cons, List.any_nil, isNoneLit, Bool.or_false, Bool.or_true] at hmk
    rw [specInitCheck_ok hmk]
    simp [SpecDef.typesList, SpecDef.optionalF]
  · simp [mkTypeSpec, isNoneLit, specInitCheck, SpecDef.optionalF, SpecDef.defaultF,
      specInnerCheck, checkValueTypes, checkValueTypesGo, checkValueBaseType,
      checkValueSimpleType, isinstance, mkIVE]
  · simp [specCheckValue, specInnerCheck, checkValueTypes, checkValueTypesGo,
      checkValueBaseType, checkValueSimpleType, checkConstraints, canonicalizeStep,
      SpecDef.isUnsetF, SpecDef.optionalF, SpecDef.defaultF, SpecDef.constraintsF,
      SpecDef.canonF, SpecDef.ntmFlag, default_is_unset, Val.truthy, isinstance, mkIVE]

/-- Witness for the `TypeSpec` constructor theorem: both constructor parts
applied at concrete type tuples. -/
theorem c8_typespec_none_optional_witness :
    (SpecDef.typeSpec [.simple .litNone] true .none default_is_unset []).optionalF = true
    ∧ (SpecDef.typeSpec [.simple (.type .int), .simple .litNone] true .none
        default_is_unset []).typesList
      = [.simple (.type .int)] ++ [.simple .litNone] := by
  constructor
  · exact c8_typespec_none_optional.1 [.simple .litNone] false .none default_is_unset []
      (.typeSpec [.simple .litNone] true .none default_is_unset [])
      (by decide)
      (by simp [mkTypeSpec, isNoneLit, specInitCheck, SpecDef.optionalF, SpecDef.defaultF,
        specInnerCheck, checkValueTypes, checkValueTypesGo, checkValueBaseType,
        checkValueSimpleType, mkIVE])
  · exact (c8_typespec_none_optional.2.1 [.simple (.type .int)] .none default_is_unset []
      (.typeSpec [.simple (.type .int), .simple .litNone] true .none default_is_unset [])
      (by decide)
      (by simp [mkTypeSpec, isNoneLit, specInitCheck, SpecDef.optionalF, SpecDef.defaultF,
        specInnerCheck, checkValueTypes, checkValueTypesGo, checkValueBaseType,
        checkValueSimpleType, isinstance, mkIVE])).1

/-- C4: processing a `ConditionalDictSpec` value slot whose key is present.
When the observed value equals one of the declared scalars, the
corresponding auxiliary sub-schema is additionally validated against the
whole enclosing checker state (which carries the enclosing mapping under
construction) with unhandled keys tolerated, and the canonical value of the slot
is the scalar itself; when the value matches no declared scalar, the slot
fails with a message listing the permitted values.  The last part records
that the value-key pass dispatches a conditional slot to exactly this
check. -/
theorem c4_conditional_dict_spec :
    (∀ (vcs : List (Val × DictData)) (dsp : Option DictData) (opt : Bool) (dflt : Val)
        (ap : Bool) (st st' : Checker) (v w : Val) (sub : DictData),
      lookupPyD vcs v = some sub →
      checkDictSpec sub true st = (.ok w, st') →
      condCheckValue (.mk vcs dsp opt dflt ap) v st = (.ok v, st'))
    ∧ (∀ (vcs : List (Val × DictData)) (dsp : Option DictData) (opt : Bool) (dflt : Val)
        (ap : Bool) (st : Checker) (v : Val),
      lookupPyD vcs v = Option.none →
      condCheckValue (.mk vcs dsp opt dflt ap) v st =
        (.error (mkIVE false (mustBeMsgNames (vcs.map (fun p => pyRepr p.1))) []), st))
    ∧ (∀ (c : CondSpec) (v : Val) (st : Checker),
      checkDictSpecValue (.cond c) v st = condCheckValue c v st) := by
  refine ⟨?_, ?_, ?_⟩
  · intro vcs dsp opt dflt ap st st' v w sub hl hc
    rw [condCheckValue]
    split
    · rename_i d heq
      rw [hl] at heq
      cases heq
      rw [hc]
    · rename_i heq
      rw [hl] at heq
      cases heq
  · intro vcs dsp opt dflt ap st v hl
    rw [condCheckValue]
    split
    · rename_i d heq
      rw [hl] at heq
      cases heq
    · rfl
  · intro c v st
    rw [checkDictSpecValue]

/-- Witness for the conditional-dict-spec theorem: a one-branch conditional
spec with an empty auxiliary schema, applied to the matching scalar and to a
mismatched scalar. -/
theorem c4_conditional_dict_spec_witness :
    condCheckValue (.mk [(.str "A", DictData.mk [] [] [])] Option.none false .none false)
        (.str "A") (Checker.mk [] [] [] [])
      = (.ok (.str "A"), Checker.mk [] [] [] [])
    ∧ condCheckValue (.mk [(.str "A", DictData.mk [] [] [])] Option.none false .none false)
        (.str "B") (Checker.mk [] [] [] [])
      = (.error (mkIVE false
          (mustBeMsgNames ([((.str "A" : Val), DictData.mk [] [] [])].map
            (fun p => pyRepr p.1))) []),
         Checker.mk [] [] [] []) := by
  constructor
  · exact c4_conditional_dict_spec.1 [(.str "A", DictData.mk [] [] [])] Option.none false
      .none false (Checker.mk [] [] [] []) (Checker.mk [] [] [] []) (.str "A") (.dict [])
      (DictData.mk [] [] [])
      (by simp [lookupPyD, pyEq, numCanon])
      (by simp [checkDictSpec, checkValueKeySpecs, checkTypeKeySpecs, unhandledCheck,
        postProcessing, postLoop])
  · exact c4_conditional_dict_spec.2.1 [(.str "A", DictData.mk [] [] [])] Option.none false
      .none false (Checker.mk [] [] [] []) (.str "B")
      (by simp [lookupPyD, pyEq, numCanon])

/-- C2: post-processing runs only once the mapping is structurally valid.
If any failure message accumulated during the key passes or the
unhandled-key check, `check_dict_spec` raises the single aggregated
structural error (message `Does not conform with dict schema`) and returns
with the checker state exactly as the passes left it — no post rule is
evaluated; with no structural failures the result is that of
post-processing, whose own failures aggregate into the distinct error
`Post processing has failed`. -/
theorem c2_post_processing_separation :
    (∀ (vks : List (Val × DictVal)) (tks : List (BT × BT)) (post : List PostRule)
        (uok : Bool) (st st1 : Checker) (u : Unit),
      checkValueKeySpecs vks st = (.ok u, st1) →
      (unhandledCheck vks tks uok (checkTypeKeySpecs tks st1)).failure_messages ≠ [] →
      checkDictSpec (.mk vks tks post) uok st =
        (.error (mkIVE false "Does not conform with dict schema"
            (unhandledCheck vks tks uok (checkTypeKeySpecs tks st1)).failure_messages),
          unhandledCheck vks tks uok (checkTypeKeySpecs tks st1)))
    ∧ (∀ (vks : List (Val × DictVal)) (tks : List (BT × BT)) (post : List PostRule)
        (uok : Bool) (st st1 : Checker) (u : Unit),
      checkValueKeySpecs vks st = (.ok u, st1) →
      (unhandledCheck vks tks uok (checkTypeKeySpecs tks st1)).failure_messages = [] →
      checkDictSpec (.mk vks tks post) uok st =
        match postProcessing post (unhandledCheck vks tks uok (checkTypeKeySpecs tks st1)) with
        | (.ok _, st4) => (.ok (.dict st4.c_mapping), st4)
        | (.error e, st4) => (.error e, st4))
    ∧ (∀ (post : List PostRule) (st : Checker),
      (postLoop post st).failure_messages ≠ [] →
      postProcessing post st =
        (.error (mkIVE false "Post processing has failed" (postLoop post st).failure_messages),
          postLoop post st)) := by
  refine ⟨?_, ?_, ?_⟩
  · intro vks tks post uok st st1 u h1 h2
    rw [checkDictSpec, h1]
    simp only [List.isEmpty_eq_true, h2, if_false]
  · intro vks tks post uok st st1 u h1 h2
    rw [checkDictSpec, h1]
    simp only [List.isEmpty_eq_true, h2, if_true]
  · intro post st h
    rw [postProcessing]
    simp only [List.isEmpty_eq_true, h, if_false]

/-- Witness for the post-processing-separation theorem: a missing required
key makes `check_dict_spec` return the structural error with post rules
untouched, and a `Test` rule referencing an absent key makes
post-processing fail with its own aggregated error. -/
theorem c2_post_processing_separation_witness :
    checkDictSpec (.mk [(.str "a", .bt (.simple (.type .int)))] [] []) false
        (Checker.mk [] [] [] [])
      = (.error (mkIVE false "Does not conform with dict schema"
            ["Missing required mapping key \x27a\x27"]),
          Checker.mk [] [] ["Missing required mapping key \x27a\x27"] [])
    ∧ postProcessing [PostRule.test (.str "k") [] (fun _ => false) "boom"]
        (Checker.mk [] [] [] [])
      = (.error (mkIVE false "Post processing has failed" ["Missing ref_keys \x27k\x27"]),
          Checker.mk [] [] ["Missing ref_keys \x27k\x27"] []) := by
  constructor
  · have h1 : checkValueKeySpecs [(.str "a", .bt (.simple (.type .int)))]
        (Checker.mk [] [] [] [])
        = (.ok (), Checker.mk [] [] ["Missing required mapping key \x27a\x27"] []) := by
      simp [checkValueKeySpecs, containsKey, missingKeyHandler, pyRepr]
    have := c2_post_processing_separation.1 [(.str "a", .bt (.simple (.type .int)))] [] []
      false (Checker.mk [] [] [] []) _ () h1
      (by simp [unhandledCheck, checkTypeKeySpecs])
    simpa [unhandledCheck, checkTypeKeySpecs] using this
  · have := c2_post_processing_separation.2.2
      [PostRule.test (.str "k") [] (fun _ => false) "boom"] (Checker.mk [] [] [] [])
      (by simp [postLoop, postEvaluate, getRefValues, lookupPy, pyRepr])
    simpa [postLoop, postEvaluate, getRefValues, lookupPy, pyRepr] using this

/-- The post-rule loop touches only `c_mapping` and `failure_messages`, never
the candidate mapping. -/
theorem postLoop_mapping (post : List PostRule) (st : Checker) :
    (postLoop post st).mapping = st.mapping := by
  induction post generalizing st with
  | nil => rw [postLoop]
  | cons p ps ih =>
    rw [postLoop]
    cases postEvaluate p st.c_mapping with
    | ok cm => exact ih _
    | error e => exact ih _

/-- Post-processing never changes the candidate mapping. -/
theorem postProcessing_mapping (post : List PostRule) (st : Checker) :
    ((postProcessing post st).2).mapping = st.mapping := by
  rw [postProcessing]
  split
  · exact postLoop_mapping post st
  · exact postLoop_mapping post st

/-- The unhandled-key check touches only the failure messages. -/
theorem unhandledCheck_mapping (vks : List (Val × DictVal)) (tks : List (BT × BT))
    (uok : Bool) (st : Checker) :
    (unhandledCheck vks tks uok st).mapping = st.mapping := by
  rw [unhandledCheck]
  split <;> rfl

/-- `ConditionalDictSpec.check_value` restated with a non-dependent match on
the scalar lookup. -/
theorem condCheckValue_eq (vcs : List (Val × DictData)) (dsp : Option DictData) (o : Bool)
    (dflt v : Val) (ap : Bool) (st : Checker) :
    condCheckValue (.mk vcs dsp o dflt ap) v st =
      match lookupPyD vcs v with
      | some sub =>
          (match checkDictSpec sub true st with
          | (.ok _, st1) => (.ok v, st1)
          | (.error e, st1) =>
              (.error (mkIVE false
                ("Does not conform with conditional spec for value " ++ pyRepr v ++
                 ": " ++ e.message) []), st1))
      | Option.none =>
          (.error (mkIVE false (mustBeMsgNames (vcs.map (fun p => pyRepr p.1))) []), st) := by
  rw [condCheckValue]
  split
  · rename_i sub hl
    rw [hl]
  · rename_i hl
    rw [hl]

/-- Python-equality facts used below: `pyEq` is the decidable equality of
numeric canonical forms. -/
theorem pyEq_true_iff (a b : Val) : pyEq a b = true ↔ numCanon a = numCanon b := by
  simp [pyEq]

theorem pyEq_false_iff (a b : Val) : pyEq a b = false ↔ numCanon a ≠ numCanon b := by
  simp [pyEq]

theorem pyEq_refl (a : Val) : pyEq a a = true := by simp [pyEq]

/-- Keys equal under Python equality look up the same value. -/
theorem lookupPy_congr (m : List (Val × Val)) {a b : Val} (h : pyEq a b = true) :
    lookupPy m a = lookupPy m b := by
  induction m with
  | nil => rfl
  | cons kv rest ih =>
    obtain ⟨k, v⟩ := kv
    rw [lookupPy, lookupPy]
    have : pyEq k a = pyEq k b := by
      rw [pyEq_true_iff] at h
      simp [pyEq, h]
    rw [this]
    split
    · rfl
    · exact ih

/-- A key whose lookup succeeds is matched by some stored key. -/
theorem lookupPy_isSome_containsKey {m : List (Val × Val)} {k : Val}
    (h : (lookupPy m k).isSome) : containsKey (m.map Prod.fst) k = true := by
  induction m with
  | nil => simp [lookupPy] at h
  | cons kv rest ih =>
    obtain ⟨k0, v0⟩ := kv
    rw [lookupPy] at h
    by_cases hk : pyEq k0 k = true
    · simp [containsKey, hk]
    · rw [if_neg (by simpa using hk)] at h
      have := ih h
      simp [containsKey] at this ⊢
      exact Or.inr this

/-- Every stored key of a mapping looks itself up successfully. -/
theorem mapKeys_lookup_isSome {m : List (Val × Val)} {u : Val}
    (h : u ∈ m.map Prod.fst) : (lookupPy m u).isSome := by
  induction m with
  | nil => simp at h
  | cons kv rest ih =>
    obtain ⟨k0, v0⟩ := kv
    rw [lookupPy]
    simp only [List.map_cons, List.mem_cons] at h
    by_cases hk : pyEq k0 u = true
    · simp [hk]
    · rw [if_neg (by simpa using hk)]
      rcases h with h | h
      · subst h
        exact absurd (pyEq_refl u) (by simpa using hk)
      · exact ih h

/-- A key matched by some member of the unhandled set, all of whose members
look up successfully, looks up successfully itself. -/
theorem containsKey_lookup_isSome {m : List (Val × Val)} {keys : List Val} {k : Val}
    (hall : ∀ u ∈ keys, (lookupPy m u).isSome)
    (h : containsKey keys k = true) : (lookupPy m k).isSome := by
  simp only [containsKey, List.any_eq_true] at h
  obtain ⟨y, hy, hyk⟩ := h
  rw [← lookupPy_congr m hyk]
  exact hall y hy

/-- Removing one key does not affect membership of a key unequal to it. -/
theorem containsKey_removeKey {keys : List Val} {k x : Val} (hkx : pyEq k x = false) :
    containsKey (removeKey keys k) x = containsKey keys x := by
  induction keys with
  | nil => rfl
  | cons y rest ih =>
    rw [removeKey] at ih ⊢
    rw [List.filter_cons]
    by_cases hyk : pyEq y k = true
    · have hyx : pyEq y x = false := by
        rw [pyEq_false_iff]
        rw [pyEq_true_iff] at hyk
        rw [pyEq_false_iff] at hkx
        rw [hyk]
        exact hkx
      simp only [hyk, Bool.not_true, Bool.false_eq_true, if_false]
      simp [containsKey, hyx] at ih ⊢
      exact ih
    · simp only [Bool.not_eq_true] at hyk
      simp only [hyk, Bool.not_false, if_true]
      simp [containsKey] at ih ⊢
      rw [ih]

/-- Members of the unhandled set survive `removeKey` of another key. -/
theorem mem_removeKey {keys : List Val} {u k : Val} (h : u ∈ removeKey keys k) :
    u ∈ keys := by
  rw [removeKey] at h
  exact List.mem_of_mem_filter h

/-- On a required (non-optional) slot, the missing-key handler records
exactly the missing-required-key message. -/
theorem missingKeyHandler_required (key : Val) (spec : DictVal) (st : Checker)
    (h : spec.optionalSlot = false) :
    missingKeyHandler key spec st =
      (.ok (), { st with failure_messages := st.failure_messages ++
          ["Missing required mapping key " ++ pyRepr key] }) := by
  match spec with
  | .bt (.spec s) =>
    rw [DictVal.optionalSlot] at h
    rw [missingKeyHandler, if_neg (by simp [h])]
  | .cond c =>
    obtain ⟨vcs, dsp, o, dflt, ap⟩ := c
    rw [DictVal.optionalSlot] at h
    rw [missingKeyHandler, if_neg (by simp [CondSpec.optionalF, h])]
  | .bt (.simple b) => rw [missingKeyHandler]

/-- The value-key pass on a schema whose present keys all validate and whose
absent keys are all required: it completes without raising, records exactly
one missing-required-key message per absent key (in declaration order), and
removes exactly the present keys from the unhandled set. -/
theorem checkValueKeySpecs_aggregate (m : List (Val × Val)) :
    ∀ (vks : List (Val × DictVal)) (st : Checker),
    st.mapping = m →
    (∀ en ∈ vks, EntryOk m en) →
    (∀ u ∈ st.unhandled_keys, (lookupPy m u).isSome) →
    (∀ en ∈ vks, (lookupPy m en.1).isSome → containsKey st.unhandled_keys en.1 = true) →
    List.Pairwise (fun a b => pyEq a.1 b.1 = false) vks →
    ∃ cm, checkValueKeySpecs vks st =
      (.ok (),
        { mapping := m, c_mapping := cm,
          failure_messages := st.failure_messages ++ missingMsgs m vks,
          unhandled_keys := removeKeys st.unhandled_keys (presentKeys m vks) }) := by
  intro vks
  induction vks with
  | nil =>
    intro st hm hE hUn hPr hD
    obtain ⟨smap, scm, sfail, sunh⟩ := st
    have hm' : m = smap := Eq.symm hm
    subst hm'
    exact ⟨scm, by rw [checkValueKeySpecs]; simp [missingMsgs, presentKeys, removeKeys]⟩
  | cons hd rest ih =>
    obtain ⟨key, spec⟩ := hd
    intro st hm hE hUn hPr hD
    obtain ⟨smap, scm, sfail, sunh⟩ := st
    have hm' : m = smap := Eq.symm hm
    subst hm'
    simp only [Checker.mk.injEq] at *
    obtain ⟨hDhd, hDrest⟩ := List.pairwise_cons.mp hD
    rcases hE (key, spec) (by simp) with ⟨t, v, c, hspec, hlook, hchk⟩ | ⟨hlook, hreq⟩
    · -- present key with validating plain slot
      have hck : containsKey sunh key = true :=
        hPr (key, spec) (by simp) (by simp [hlook])
      subst hspec
      rw [checkValueKeySpecs, if_pos hck]
      simp only [hlook]
      rw [checkDictSpecValue]
      simp only [hchk]
      obtain ⟨cm, hrec⟩ := ih
        { mapping := m, c_mapping := dictSet scm key c,
          failure_messages := sfail, unhandled_keys := removeKey sunh key }
        rfl
        (fun en hen => hE en (by simp [hen]))
        (fun u hu => hUn u (mem_removeKey hu))
        (fun en hen hs => by
          have hkx : pyEq key en.1 = false := hDhd en hen
          rw [containsKey_removeKey hkx]
          exact hPr en (by simp [hen]) hs)
        hDrest
      refine ⟨cm, ?_⟩
      rw [hrec]
      simp [missingMsgs, presentKeys, removeKeys, hlook, List.filterMap_cons,
        List.filter_cons]
    · -- absent key with required slot
      have hck : containsKey sunh key = false := by
        cases hcc : containsKey sunh key
        · rfl
        · have := containsKey_lookup_isSome hUn hcc
          rw [hlook] at this
          simp at this
      rw [checkValueKeySpecs, if_neg (by simp [hck])]
      rw [missingKeyHandler_required key spec _ hreq]
      simp only []
      obtain ⟨cm, hrec⟩ := ih
        { mapping := m, c_mapping := scm,
          failure_messages := sfail ++ ["Missing required mapping key " ++ pyRepr key],
          unhandled_keys := sunh }
        rfl
        (fun en hen => hE en (by simp [hen]))
        hUn
        (fun en hen hs => hPr en (by simp [hen]) hs)
        hDrest
      refine ⟨cm, ?_⟩
      rw [hrec]
      simp [missingMsgs, presentKeys, removeKeys, hlook, List.filterMap_cons,
        List.filter_cons]

/-- `missingMsgs` distributes over append. -/
theorem missingMsgs_append (m : List (Val × Val)) (l1 l2 : List (Val × DictVal)) :
    missingMsgs m (l1 ++ l2) = missingMsgs m l1 ++ missingMsgs m l2 := by
  simp [missingMsgs, List.filterMap_append]

/-- `missingMsgs` on a present head entry. -/
theorem missingMsgs_cons_present (m : List (Val × Val)) (k : Val) (s : DictVal)
    (l : List (Val × DictVal)) (h : (lookupPy m k).isSome) :
    missingMsgs m ((k, s) :: l) = missingMsgs m l := by
  rw [Option.isSome_iff_exists] at h
  obtain ⟨v, hv⟩ := h
  simp [missingMsgs, List.filterMap_cons, hv]

/-- `missingMsgs` on an absent head entry. -/
theorem missingMsgs_cons_absent (m : List (Val × Val)) (k : Val) (s : DictVal)
    (l : List (Val × DictVal)) (h : lookupPy m k = Option.none) :
    missingMsgs m ((k, s) :: l) =
      ("Missing required mapping key " ++ pyRepr k) :: missingMsgs m l := by
  simp [missingMsgs, List.filterMap_cons, h]

/-- `missingMsgs` vanishes on a list of present entries. -/
theorem missingMsgs_all_present {m : List (Val × Val)} {l : List (Val × DictVal)}
    (h : ∀ en ∈ l, (lookupPy m en.1).isSome) : missingMsgs m l = [] := by
  induction l with
  | nil => rfl
  | cons hd tl ih =>
    obtain ⟨k, s⟩ := hd
    rw [missingMsgs_cons_present m k s tl (h (k, s) (by simp))]
    exact ih (fun en hen => h en (by simp [hen]))

/-- The type-key pass leaves the checker unchanged when the one remaining
unhandled key fails every type rule with a no-type-match. -/
theorem checkTypeKeySpecs_single_ntm (tks : List (BT × BT)) (st : Checker)
    (x xv : Val) (e : IVE)
    (hu : st.unhandled_keys = [x]) (hl : lookupPy st.mapping x = some xv)
    (ht : checkTypeKeySpec tks x xv = .error e) (hntm : e.noTypeMatch = true) :
    checkTypeKeySpecs tks st = st := by
  rw [checkTypeKeySpecs]
  split
  · rfl
  · rw [hu, typeKeyLoop]
    simp only [hl, ht, hntm, if_true]
    rw [typeKeyLoop]

mutual

/-- `check_dict_spec` never writes the candidate mapping held by the
checker. -/
theorem checkDictSpec_mapping (d : DictData) (uok : Bool) (st : Checker) :
    ((checkDictSpec d uok st).2).mapping = st.mapping := by
  match d with
  | .mk vks tks post =>
    rw [checkDictSpec]
    have hv := checkValueKeySpecs_mapping vks st
    rcases h1 : checkValueKeySpecs vks st with ⟨r1, st1⟩
    rw [h1] at hv
    cases r1 with
    | error e => simp only [h1]; exact hv
    | ok u =>
      simp only [h1]
      have ht := checkTypeKeySpecs_mapping tks st1
      have hu := unhandledCheck_mapping vks tks uok (checkTypeKeySpecs tks st1)
      have hp := postProcessing_mapping post
        (unhandledCheck vks tks uok (checkTypeKeySpecs tks st1))
      split
      · rcases h2 : postProcessing post
            (unhandledCheck vks tks uok (checkTypeKeySpecs tks st1)) with ⟨r2, st4⟩
        rw [h2] at hp
        cases r2 <;> simp only [h2] <;> rw [hp, hu, ht, hv]
      · rw [hu, ht, hv]
termination_by (sizeOf d, 0, 0)

/-- The value-key pass never writes the candidate mapping. -/
theorem checkValueKeySpecs_mapping (vks : List (Val × DictVal)) (st : Checker) :
    ((checkValueKeySpecs vks st).2).mapping = st.mapping := by
  match vks with
  | [] => rw [checkValueKeySpecs]
  | (key, spec) :: rest =>
    rw [checkValueKeySpecs]
    split
    · rcases hl : lookupPy st.mapping key with _ | value
      · simp only [hl]
        have hm := missingKeyHandler_mapping key spec
          { st with unhandled_keys := removeKey st.unhandled_keys key }
        rcases h2 : missingKeyHandler key spec
            { st with unhandled_keys := removeKey st.unhandled_keys key } with ⟨r2, st1⟩
        rw [h2] at hm
        cases r2 with
        | error e => simp only [h2]; exact hm
        | ok u =>
          simp only [h2]
          rw [checkValueKeySpecs_mapping rest st1]
          exact hm
      · simp only [hl]
        have hd := checkDictSpecValue_mapping spec value
          { st with unhandled_keys := removeKey st.unhandled_keys key }
        rcases h2 : checkDictSpecValue spec value
            { st with unhandled_keys := removeKey st.unhandled_keys key } with ⟨r2, st1⟩
        rw [h2] at hd
        cases r2 with
        | error e =>
          simp only [h2]
          rw [checkValueKeySpecs_mapping rest _]
          exact hd
        | ok c =>
          simp only [h2]
          rw [checkValueKeySpecs_mapping rest _]
          exact hd
    · have hm := missingKeyHandler_mapping key spec st
      rcases h2 : missingKeyHandler key spec st with ⟨r2, st1⟩
      rw [h2] at hm
      cases r2 with
      | error e => simp only [h2]; exact hm
      | ok u =>
        simp only [h2]
        rw [checkValueKeySpecs_mapping rest st1]
        exact hm
termination_by (sizeOf vks, 1, 0)

/-- The missing-key handler never writes the candidate mapping. -/
theorem missingKeyHandler_mapping (key : Val) (spec : DictVal) (st : Checker) :
    ((missingKeyHandler key spec st).2).mapping = st.mapping := by
  match spec with
  | .bt (.spec s) =>
    rw [missingKeyHandler]
    split
    · cases specCheckValue s s.defaultF <;> rfl
    · rfl
  | .cond c =>
    rw [missingKeyHandler]
    split
    · have hc := condDefault_mapping c st
      rcases h2 : condDefault c st with ⟨r2, st1⟩
      rw [h2] at hc
      cases r2 <;> simp only [h2] <;> exact hc
    · rfl
  | .bt (.simple b) => rw [missingKeyHandler]
termination_by (sizeOf spec, 2, 0)

/-- `ConditionalDictSpec.default` never writes the candidate mapping. -/
theorem condDefault_mapping (c : CondSpec) (st : Checker) :
    ((condDefault c st).2).mapping = st.mapping := by
  match c with
  | .mk vcs (some ds) o dflt ap =>
    rw [condDefault]
    have hd := checkDictSpec_mapping ds true st
    rcases h2 : checkDictSpec ds true st with ⟨r2, st1⟩
    rw [h2] at hd
    cases r2 <;> simp only [h2] <;> exact hd
  | .mk vcs Option.none o dflt ap => rw [condDefault]
termination_by (sizeOf c, 1, 0)

/-- `ConditionalDictSpec.check_value` never writes the candidate mapping. -/
theorem condCheckValue_mapping (c : CondSpec) (v : Val) (st : Checker) :
    ((condCheckValue c v st).2).mapping = st.mapping := by
  match c with
  | .mk vcs dsp o dflt ap =>
    rw [condCheckValue_eq]
    rcases hl : lookupPyD vcs v with _ | sub
    · simp only [hl]
    · simp only [hl]
      have hd := checkDictSpec_mapping sub true st
      rcases h2 : checkDictSpec sub true st with ⟨r2, st1⟩
      rw [h2] at hd
      cases r2 <;> simp only [h2] <;> exact hd
termination_by (sizeOf c, 0, 0)
decreasing_by
  have := lookupPyD_sizeOf hl
  simp_wf
  refine Prod.Lex.left _ _ ?_
  omega

/-- `_check_dict_spec_value` never writes the candidate mapping. -/
theorem checkDictSpecValue_mapping (spec : DictVal) (v : Val) (st : Checker) :
    ((checkDictSpecValue spec v st).2).mapping = st.mapping := by
  match spec with
  | .cond c =>
    rw [checkDictSpecValue]
    exact condCheckValue_mapping c v st
  | .bt t => rw [checkDictSpecValue]
termination_by (sizeOf spec, 1, 0)

/-- The type-key pass never writes the candidate mapping. -/
theorem checkTypeKeySpecs_mapping (tks : List (BT × BT)) (st : Checker) :
    (checkTypeKeySpecs tks st).mapping = st.mapping := by
  rw [checkTypeKeySpecs]
  split
  · rfl
  · exact typeKeyLoop_mapping tks st.unhandled_keys st

/-- The type-key loop never writes the candidate mapping. -/
theorem typeKeyLoop_mapping (tks : List (BT × BT)) (keys : List Val) (st : Checker) :
    (typeKeyLoop tks keys st).mapping = st.mapping := by
  match keys with
  | [] => rw [typeKeyLoop]
  | key :: rest =>
    rw [typeKeyLoop]
    rcases hl : lookupPy st.mapping key with _ | value
    · simp only [hl]
      exact typeKeyLoop_mapping tks rest st
    · simp only [hl]
      rcases h2 : checkTypeKeySpec tks key value with e | ⟨cKey, cValue⟩
      · simp only [h2]
        split
        · exact typeKeyLoop_mapping tks rest st
        · rw [typeKeyLoop_mapping]
      · simp only [h2]
        rw [typeKeyLoop_mapping]
termination_by (sizeOf tks, 1, sizeOf keys)

end

/-- Joining a single string with any separator returns it unchanged. -/
theorem intercalate_singleton (s a : String) : String.intercalate s [a] = a := rfl

/-- C1: validating a mapping against a `DictSpec` with `unhandled_ok=False`
when exactly two required value keys are missing, every other declared value
key is present and validates, and one extra key is claimed by no rule (it
matches no value key and fails every type rule with a no-type-match) raises
exactly one value-invalid error whose failure-message list has exactly 3
entries (`error_count = 3`): one missing-required-mapping-key message per
missing key, in declaration order, plus one message listing the unhandled
key; no error is raised for any single failure alone. -/
theorem c1_mapping_error_aggregation
    (A B C : List (Val × DictVal)) (k1 k2 : Val) (s1 s2 : DictVal)
    (tks : List (BT × BT)) (post : List PostRule) (name : String)
    (opt : Bool) (dflt : Val) (iu : Val → Bool) (cs : List ConstraintPair)
    (m : List (Val × Val)) (x xv : Val) (te : IVE)
    (hsub : (iu (.dict m) && opt) = false)
    (hP : ∀ en ∈ A ++ B ++ C,
      ∃ t v c, en.2 = DictVal.bt t ∧ lookupPy m en.1 = some v ∧
        checkValueBaseType t v = .ok c)
    (hk1 : lookupPy m k1 = Option.none) (hr1 : s1.optionalSlot = false)
    (hk2 : lookupPy m k2 = Option.none) (hr2 : s2.optionalSlot = false)
    (hdist : List.Pairwise (fun a b => pyEq a.1 b.1 = false)
      (A ++ (k1, s1) :: B ++ (k2, s2) :: C))
    (hx : removeKeys (m.map Prod.fst)
      (presentKeys m (A ++ (k1, s1) :: B ++ (k2, s2) :: C)) = [x])
    (hxv : lookupPy m x = some xv)
    (htk : checkTypeKeySpec tks x xv = .error te) (hntm : te.noTypeMatch = true) :
    specCheckValue
        (.dictSpec (.mk (A ++ (k1, s1) :: B ++ (k2, s2) :: C) tks post)
          name false opt dflt iu cs)
        (.dict m)
      = .error (mkIVE false "Does not conform with dict schema"
          ["Missing required mapping key " ++ pyRepr k1,
           "Missing required mapping key " ++ pyRepr k2,
           "Keys " ++ pyRepr x ++ " are unhandled; valid keys Must be " ++
             ("[" ++ String.intercalate ", "
               ((A ++ (k1, s1) :: B ++ (k2, s2) :: C).map (fun en => pyRepr en.1) ++
                tks.map (fun en => btPyRepr en.1)) ++ "]")])
    ∧ (∀ m1 m2 m3 : String,
        (mkIVE false "Does not conform with dict schema" [m1, m2, m3]).errorCount = 3) := by
  have hPA : ∀ en ∈ A, (lookupPy m en.1).isSome := by
    intro en hen
    obtain ⟨t, v, c, _, hl, _⟩ := hP en (by simp [hen])
    simp [hl]
  have hPB : ∀ en ∈ B, (lookupPy m en.1).isSome := by
    intro en hen
    obtain ⟨t, v, c, _, hl, _⟩ := hP en (by simp [hen])
    simp [hl]
  have hPC : ∀ en ∈ C, (lookupPy m en.1).isSome := by
    intro en hen
    obtain ⟨t, v, c, _, hl, _⟩ := hP en (by simp [hen])
    simp [hl]
  have hE : ∀ en ∈ A ++ (k1, s1) :: B ++ (k2, s2) :: C, EntryOk m en := by
    intro en hen
    simp only [List.mem_append, List.mem_cons] at hen
    rcases hen with (hA | hEq1 | hB) | hEq2 | hC
    · exact Or.inl (hP en (by simp [hA]))
    · subst hEq1
      exact Or.inr ⟨hk1, hr1⟩
    · exact Or.inl (hP en (by simp [hB]))
    · subst hEq2
      exact Or.inr ⟨hk2, hr2⟩
    · exact Or.inl (hP en (by simp [hC]))
  obtain ⟨cm, hpass⟩ := checkValueKeySpecs_aggregate m
    (A ++ (k1, s1) :: B ++ (k2, s2) :: C)
    { mapping := m, c_mapping := [], failure_messages := [],
      unhandled_keys := m.map Prod.fst }
    rfl hE
    (fun u hu => mapKeys_lookup_isSome hu)
    (fun en _ hs => lookupPy_isSome_containsKey hs)
    hdist
  have hmiss : missingMsgs m (A ++ (k1, s1) :: B ++ (k2, s2) :: C) =
      ["Missing required mapping key " ++ pyRepr k1,
       "Missing required mapping key " ++ pyRepr k2] := by
    rw [missingMsgs_append, missingMsgs_append, missingMsgs_all_present hPA,
      missingMsgs_cons_absent m k1 s1 _ hk1, missingMsgs_all_present hPB,
      missingMsgs_cons_absent m k2 s2 _ hk2, missingMsgs_all_present hPC]
    rfl
  rw [hmiss, hx] at hpass
  refine ⟨?_, by intro m1 m2 m3; simp [mkIVE, IVE.errorCount]⟩
  rw [specCheckValue]
  simp only [SpecDef.isUnsetF, SpecDef.optionalF, SpecDef.defaultF, SpecDef.constraintsF,
    SpecDef.canonF, SpecDef.ntmFlag, hsub, Bool.false_eq_true, if_false]
  rw [specInnerCheck, dictSpecInnerCheck, checkDictSpec, hpass]
  simp only []
  rw [checkTypeKeySpecs_single_ntm tks _ x xv te rfl hxv htk hntm]
  rw [unhandledCheck]
  simp only [List.isEmpty_cons, Bool.not_false, Bool.and_self, if_true]
  simp [mkIVE, intercalate_singleton]

/-- Witness for the mapping-error-aggregation theorem: the schema requires
keys `a`, `b`, `c`; the candidate supplies a valid `a`, omits `b` and `c`,
and carries an extra key `x`.  The single raised error aggregates exactly
three failure messages. -/
theorem c1_mapping_error_aggregation_witness :
    specCheckValue
        (.dictSpec
          (.mk ([((.str "a" : Val), DictVal.bt (.simple (.type .int)))] ++
              ((.str "b" : Val), DictVal.bt (.simple (.type .str))) :: [] ++
              ((.str "c" : Val), DictVal.bt (.simple (.type .int))) :: []) [] [])
          "dict" false false .none simple_is_unset [])
        (.dict [(.str "a", .int 5), (.str "x", .int 1)])
      = .error (mkIVE false "Does not conform with dict schema"
          ["Missing required mapping key " ++ pyRepr (.str "b"),
           "Missing required mapping key " ++ pyRepr (.str "c"),
           "Keys " ++ pyRepr (.str "x") ++ " are unhandled; valid keys Must be " ++
             ("[" ++ String.intercalate ", "
               ((([((.str "a" : Val), DictVal.bt (.simple (.type .int)))] ++
                  ((.str "b" : Val), DictVal.bt (.simple (.type .str))) :: [] ++
                  ((.str "c" : Val), DictVal.bt (.simple (.type .int))) :: []).map
                    (fun en => pyRepr en.1)) ++
                ([] : List (BT × BT)).map (fun en => btPyRepr en.1)) ++ "]")])
    ∧ (∀ m1 m2 m3 : String,
        (mkIVE false "Does not conform with dict schema" [m1, m2, m3]).errorCount = 3) :=
  c1_mapping_error_aggregation
    [((.str "a" : Val), DictVal.bt (.simple (.type .int)))] [] []
    (.str "b") (.str "c") (DictVal.bt (.simple (.type .str)))
    (DictVal.bt (.simple (.type .int)))
    [] [] "dict" false .none simple_is_unset []
    [(.str "a", .int 5), (.str "x", .int 1)] (.str "x") (.int 1)
    (mkIVE true "No match for dict type keys" [])
    (by simp)
    (by
      intro en hen
      simp only [List.append_nil, List.mem_singleton] at hen
      subst hen
      exact ⟨.simple (.type .int), .int 5, .int 5, rfl, by decide,
        by simp [checkValueBaseType, checkValueSimpleType, isinstance]⟩)
    (by decide) rfl (by decide) rfl
    (by decide)
    (by decide)
    (by decide)
    (by simp [checkTypeKeySpec]) (by decide)

/-- A successful `check_dict_spec` returns exactly the canonical mapping of
its final checker state. -/
theorem checkDictSpec_ok_shape {d : DictData} {uok : Bool} {st stf : Checker} {v : Val}
    (h : checkDictSpec d uok st = (.ok v, stf)) : v = .dict stf.c_mapping := by
  obtain ⟨vks, tks, post⟩ := d
  rw [checkDictSpec] at h
  rcases h1 : checkValueKeySpecs vks st with ⟨r1, st1⟩
  rw [h1] at h
  cases r1 with
  | error e => simp at h
  | ok u =>
    simp only [] at h
    split at h
    · rcases h2 : postProcessing post
          (unhandledCheck vks tks uok (checkTypeKeySpecs tks st1)) with ⟨r2, st4⟩
      rw [h2] at h
      cases r2 with
      | ok w =>
        simp only [Prod.mk.injEq, Except.ok.injEq] at h
        obtain ⟨hv, hst⟩ := h
        rw [← hv, ← hst]
      | error e2 => simp at h
    · simp at h

/-- C9: `DictSpec` validation never mutates the candidate mapping: every
checker pass preserves the stored candidate (the `mapping` field of the
checker), each invocation allocates a fresh canonical dict (the
per-invocation checker starts with an empty `c_mapping`), and on success the
returned value is exactly the freshly built canonical dict of the final
checker state. -/
theorem c9_no_candidate_mutation :
    (∀ (d : DictData) (uok : Bool) (st : Checker),
      ((checkDictSpec d uok st).2).mapping = st.mapping)
    ∧ (∀ (d : DictData) (uok : Bool) (items : List (Val × Val)),
      dictSpecInnerCheck d uok (.dict items) =
        (checkDictSpec d uok
          { mapping := items, c_mapping := [], failure_messages := [],
            unhandled_keys := items.map Prod.fst }).1)
    ∧ (∀ (d : DictData) (uok : Bool) (st stf : Checker) (v : Val),
      checkDictSpec d uok st = (.ok v, stf) → v = .dict stf.c_mapping) := by
  refine ⟨checkDictSpec_mapping, ?_, ?_⟩
  · intro d uok items
    rw [dictSpecInnerCheck]
  · intro d uok st stf v h
    exact checkDictSpec_ok_shape h

/-- Witness for the no-candidate-mutation theorem: a one-key schema applied
to its valid one-key mapping (plus the frame part at the same state). -/
theorem c9_no_candidate_mutation_witness :
    (Val.dict [(.str "a", .int 5)]) =
      .dict (Checker.mk [(.str "a", .int 5)] [(.str "a", .int 5)] [] []).c_mapping :=
  c9_no_candidate_mutation.2.2
    (.mk [((.str "a" : Val), DictVal.bt (.simple (.type .int)))] [] []) false
    (Checker.mk [(.str "a", .int 5)] [] [] [.str "a"])
    (Checker.mk [(.str "a", .int 5)] [(.str "a", .int 5)] [] [])
    (.dict [(.str "a", .int 5)])
    (by simp [checkDictSpec, checkValueKeySpecs, checkDictSpecValue, checkValueBaseType,
      checkValueSimpleType, checkTypeKeySpecs, unhandledCheck, postProcessing, postLoop,
      containsKey, removeKey, lookupPy, dictSet, pyEq, numCanon, isinstance])

end Dataschema
